import Mathlib

/-!
The email and password authentication service of stacked-prs.

A shallow embedding of `src/models/User.js`, `src/services/authService.js` and
`src/routes/authRoutes.js`, followed by the properties of the registration,
login and token-verification protocol.

Conventions of the embedding.

* An `async` function becomes a function from the store it starts on to an
  `Outcome`: the value it resolves to or the error it rejects with, the store it
  leaves, and the calls it made on its collaborators, in order.
* The third-party libraries are parameters: `Bcrypt` (hashSync / compareSync) and
  `JwtLib` (the compact encoding and the signature check of jsonwebtoken). The
  handling of `iat` / `exp` around them is written out.
* The clock (seconds) and the salt entropy drawn by bcrypt are explicit arguments
  `now` and `salt`.
* The sqlite file is a list of rows plus a `fault`: when set, every statement
  fails with that driver message (table missing, file locked, disk error).
* A value that reaches sqlite untyped (`decoded.userId`) is a `Param`, the value
  as the driver binds it; how sqlite reads a text as a number is the parameter
  `Sqlite.numericText`.
* `req.body` is `none` when the request carries no parsed body (`undefined`).
-/

namespace StackedPrs

/-! ## The store (sqlite3, table `users`) -/

/-- A row of table `users`, columns as `User.js` reads them. -/
structure Row where
  id : Nat
  email : String
  password_hash : String
  created_at : Nat
deriving DecidableEq, Repr

/-- The database file: the rows of `users` in rowid order, and the failure every
statement meets when the file cannot be used. -/
structure Db where
  rows : List Row
  fault : Option String
deriving DecidableEq, Repr

/-- What a promise rejects with: an `Error` made by the service itself, the error
object of the sqlite3 driver, an error of jsonwebtoken, or a `TypeError`. -/
inductive Thrown where
  | error (message : String)
  | sqlite (message : String)
  | jwt (name : String) (message : String)
  | typeError (message : String)
deriving DecidableEq, Repr

/-- The `message` property of a thrown error, as the routes read it. -/
def Thrown.message : Thrown → String
  | .error m => m
  | .sqlite m => m
  | .jwt _ m => m
  | .typeError m => m

/-- The text sqlite gives for a second row with the same email. -/
def uniqueViolation : String :=
  "SQLITE_CONSTRAINT: UNIQUE constraint failed: users.email"

/-- The largest rowid in use (0 for an empty table). -/
def lastRowid (rows : List Row) : Nat :=
  rows.foldr (fun r m => max r.id m) 0

/-- Modelled from the spec: `schema.sql` is not among the sources. Section 6 gives
the table: `id` auto-assigned and unique, `email` unique and not null,
`password_hash` not null, `created_at` assigned at insert. This is
`INSERT INTO users (email, password_hash) VALUES (?, ?)`: it fails on a faulty
file, fails with the uniqueness violation when a row has the email (compared
byte for byte), and otherwise appends one row under the next rowid and answers
that rowid (`this.lastID`). -/
def Db.insert (db : Db) (email password_hash : String) (now : Nat) :
    Except Thrown (Nat × Db) :=
  match db.fault with
  | some m => .error (.sqlite m)
  | none =>
    if db.rows.any (fun r => r.email == email) then
      .error (.sqlite uniqueViolation)
    else
      let id := lastRowid db.rows + 1
      .ok (id, { db with rows := db.rows ++ [⟨id, email, password_hash, now⟩] })

/-- The statement `SELECT * FROM users WHERE <column> = ?` run through `db.get`:
the first row that matches, nothing when none does; the store is only read. -/
def Db.get (db : Db) (p : Row → Bool) : Except Thrown (Option Row) :=
  match db.fault with
  | some m => .error (.sqlite m)
  | none => .ok (db.rows.find? p)

/-- A JavaScript value as the sqlite3 driver binds it to a `?`: `undefined` and
`null` bind NULL; a number (or a boolean, bound as 0 or 1) that is a natural
number binds as that number; any other number (negative, fractional) is
`offNumber`; a string binds as text, and so does any other object through its
`toString`. -/
inductive Param where
  | null
  | number (n : Nat)
  | offNumber
  | text (s : String)
deriving DecidableEq, Repr

/-- The part of the sqlite engine that the model leaves open: `numericText s` is
the natural number that sqlite reads the text `s` as when it compares it with an
INTEGER column, and `none` when it reads no number or another number. -/
structure Sqlite where
  numericText : String → Option Nat

/-- Modelled from the spec: `schema.sql` is not among the sources. Section 6 has
`id` auto-assigned and unique, which in sqlite is an INTEGER PRIMARY KEY column.
This is the comparison `id = ?` for a row id and a bound value: NULL equals
nothing, a number equals the id when it is the same number, and a text is first
read as a number. -/
def Sqlite.idEq (sq : Sqlite) (id : Nat) : Param → Bool
  | .null => false
  | .number n => id == n
  | .offNumber => false
  | .text s => sq.numericText s == some id

/-! ## bcrypt and jsonwebtoken -/

/-- The two functions of bcrypt the model uses. `hashSync password rounds salt`
is the hash under the salt drawn for this call. -/
structure Bcrypt where
  hashSync : String → Nat → Nat → String
  compareSync : String → String → Bool

/-- The payload of a token as `jwt.verify` hands it back. `userId` is whatever
value the payload carries under that key (`Param.null` when it carries none);
`exp` is `none` when the payload has no expiry. -/
structure Claims where
  userId : Param
  email : String
  iat : Nat
  exp : Option Nat
deriving DecidableEq, Repr

/-- The codec of jsonwebtoken: `encode claims key` is the signed compact string,
`decode token key` the payload of a well-formed token whose signature checks
under `key`, and `none` for any other string. -/
structure JwtLib where
  encode : Claims → String → String
  decode : String → String → Option Claims

/-- The span `'24h'` in seconds. -/
def expiresIn : Nat := 24 * 60 * 60

/-- The call `jwt.sign({ userId, email }, key, { expiresIn: '24h' })` at time `now`:
`iat` is the current second and `exp` is `iat` plus the span. -/
def JwtLib.sign (J : JwtLib) (now : Nat) (userId : Nat) (email : String)
    (key : String) : String :=
  J.encode ⟨.number userId, email, now, some (now + expiresIn)⟩ key

/-- The call `jwt.verify(token, key)` at time `now`: a string that does not decode
under the key throws `JsonWebTokenError`; a payload whose `exp` is not after the
current second throws `TokenExpiredError`; otherwise the payload is returned. -/
def JwtLib.verify (J : JwtLib) (now : Nat) (token key : String) :
    Except Thrown Claims :=
  match J.decode token key with
  | none => .error (.jwt "JsonWebTokenError" "invalid token")
  | some c =>
    match c.exp with
    | some e => if now ≥ e then .error (.jwt "TokenExpiredError" "jwt expired") else .ok c
    | none => .ok c

/-! ## `src/models/User.js` -/

/-- An instance of class `User`. -/
structure User where
  id : Nat
  email : String
  passwordHash : String
  createdAt : Nat
deriving DecidableEq, Repr

/-- The expression `new User(row.id, row.email, row.password_hash, row.created_at)`. -/
def User.ofRow (row : Row) : User :=
  ⟨row.id, row.email, row.password_hash, row.created_at⟩

/-- Method `User.create(email, password)`: hash with 10 rounds, insert, then read the new
row back by `this.lastID`. The pair is the settled promise and the store left. -/
def User.create (bc : Bcrypt) (now salt : Nat) (db : Db) (email password : String) :
    Except Thrown User × Db :=
  let passwordHash := bc.hashSync password 10 salt
  match db.insert email passwordHash now with
  | .error err => (.error err, db)
  | .ok (lastID, db1) =>
    match db1.get (fun r => r.id == lastID) with
    | .error err => (.error err, db1)
    | .ok none =>
      (.error (.typeError "Cannot read properties of undefined (reading 'id')"), db1)
    | .ok (some row) => (.ok (User.ofRow row), db1)

/-- Method `User.findByEmail(email)`: `null` is `none`. -/
def User.findByEmail (db : Db) (email : String) : Except Thrown (Option User) :=
  match db.get (fun r => r.email == email) with
  | .error err => .error err
  | .ok none => .ok none
  | .ok (some row) => .ok (some (User.ofRow row))

/-- Method `User.findById(id)`: the value `id` goes to sqlite as it is, and the
first row whose id sqlite finds equal to it is the answer. -/
def User.findById (sq : Sqlite) (db : Db) (id : Param) : Except Thrown (Option User) :=
  match db.get (fun r => sq.idEq r.id id) with
  | .error err => .error err
  | .ok none => .ok none
  | .ok (some row) => .ok (some (User.ofRow row))

/-- Method `user.verifyPassword(password)`. -/
def User.verifyPassword (bc : Bcrypt) (user : User) (password : String) : Bool :=
  bc.compareSync password user.passwordHash

/-! ## `src/services/authService.js` -/

/-- The calls that the service and the routes make on their collaborators. -/
inductive Event where
  | findByEmail (email : String)
  | create (email password : String)
  | findById (id : Param)
  | register (email password : String)
  | login (email password : String)
  | verifyToken (token : String)
deriving DecidableEq, Repr

/-- A settled `async` call: the value or the rejection, the store it leaves and
the calls it made, oldest first. -/
structure Outcome (α : Type) where
  result : Except Thrown α
  db : Db
  calls : List Event

/-- What the process is started with: the libraries and the value of the
environment variable `JWT_SECRET` (`none` when it is not set). -/
structure Env where
  bcrypt : Bcrypt
  jwt : JwtLib
  sqlite : Sqlite
  secretVar : Option String

/-- The literal on the right of `||` in line 7. -/
def defaultSecret : String := "your-secret-key-change-in-production"

/-- The constant `JWT_SECRET = process.env.JWT_SECRET || '...'`: the variable when
it is set to a non-empty string, the literal otherwise. -/
def JWT_SECRET (secretVar : Option String) : String :=
  match secretVar with
  | some s => if s = "" then defaultSecret else s
  | none => defaultSecret

/-- The object `{ id, email, createdAt }` placed under `user`. -/
structure PublicUser where
  id : Nat
  email : String
  createdAt : Nat
deriving DecidableEq, Repr

/-- The object `{ user, token }` that `register` and `login` resolve to. -/
structure AuthResult where
  user : PublicUser
  token : String
deriving DecidableEq, Repr

/-- The object literal `{ id: user.id, email: user.email, createdAt: user.createdAt }`. -/
def User.view (user : User) : PublicUser :=
  ⟨user.id, user.email, user.createdAt⟩

namespace AuthService

/-- Method `generateToken(user)` at time `now`. -/
def generateToken (E : Env) (now : Nat) (user : User) : String :=
  E.jwt.sign now user.id user.email (JWT_SECRET E.secretVar)

/-- Method `register(email, password)` with the store as its two awaits meet it: `others`
is what other requests did to the store while the call was suspended in
`await User.findByEmail`, so `User.create` runs on `others db`. -/
def registerAmid (E : Env) (others : Db → Db) (now salt : Nat) (db : Db)
    (email password : String) : Outcome AuthResult :=
  match User.findByEmail db email with
  | .error err => ⟨.error err, db, [.findByEmail email]⟩
  | .ok (some _) => ⟨.error (.error "User already exists"), db, [.findByEmail email]⟩
  | .ok none =>
    match User.create E.bcrypt now salt (others db) email password with
    | (.error err, db1) => ⟨.error err, db1, [.findByEmail email, .create email password]⟩
    | (.ok user, db1) =>
      ⟨.ok ⟨user.view, generateToken E now user⟩, db1,
        [.findByEmail email, .create email password]⟩

/-- Method `register(email, password)` when no other request touches the store meanwhile. -/
def register (E : Env) (now salt : Nat) (db : Db) (email password : String) :
    Outcome AuthResult :=
  registerAmid E id now salt db email password

/-- Method `login(email, password)`. -/
def login (E : Env) (now : Nat) (db : Db) (email password : String) :
    Outcome AuthResult :=
  match User.findByEmail db email with
  | .error err => ⟨.error err, db, [.findByEmail email]⟩
  | .ok none => ⟨.error (.error "Invalid email or password"), db, [.findByEmail email]⟩
  | .ok (some user) =>
    if !user.verifyPassword E.bcrypt password then
      ⟨.error (.error "Invalid email or password"), db, [.findByEmail email]⟩
    else
      ⟨.ok ⟨user.view, generateToken E now user⟩, db, [.findByEmail email]⟩

/-- The `try` block of `verifyToken`, lines 60 to 65. -/
def verifyTokenTry (E : Env) (now : Nat) (db : Db) (token : String) : Outcome User :=
  match E.jwt.verify now token (JWT_SECRET E.secretVar) with
  | .error err => ⟨.error err, db, []⟩
  | .ok decoded =>
    match User.findById E.sqlite db decoded.userId with
    | .error err => ⟨.error err, db, [.findById decoded.userId]⟩
    | .ok none => ⟨.error (.error "User not found"), db, [.findById decoded.userId]⟩
    | .ok (some user) => ⟨.ok user, db, [.findById decoded.userId]⟩

/-- Method `verifyToken(token)`: whatever the `try` block throws, the `catch` throws
`new Error('Invalid token')` in its place. -/
def verifyToken (E : Env) (now : Nat) (db : Db) (token : String) : Outcome User :=
  let o := verifyTokenTry E now db token
  match o.result with
  | .ok user => ⟨.ok user, o.db, o.calls⟩
  | .error _ => ⟨.error (.error "Invalid token"), o.db, o.calls⟩

end AuthService

/-! ## `src/routes/authRoutes.js` -/

/-- A JSON value, as far as the responses need it. -/
inductive Json where
  | num (n : Nat)
  | str (s : String)
  | obj (fields : List (String × Json))

mutual
/-- Every key of the objects inside a JSON value, at any depth. -/
def Json.keys : Json → List String
  | .num _ => []
  | .str _ => []
  | .obj fields => Json.keysOf fields
/-- The keys of a field list and of the values under them. -/
def Json.keysOf : List (String × Json) → List String
  | [] => []
  | (k, v) :: rest => k :: (Json.keys v ++ Json.keysOf rest)
end

/-- What `res.status(n).json(body)` sends. -/
structure Response where
  status : Nat
  body : Json

/-- A handled request: the response, the store left, the calls made. -/
structure Handled where
  response : Response
  db : Db
  calls : List Event

/-- The fields `email` and `password` of a parsed `req.body`, typed as section 6
types them: a string, or `none` when the key is absent. A request without a
parsed body has no `Body` at all: the handlers take an `Option Body`. -/
structure Body where
  email : Option String
  password : Option String

/-- The `TypeError` that `const { email, password } = req.body` throws when
`req.body` is `undefined`. -/
def destructureError : Thrown :=
  .typeError "Cannot destructure property 'email' of 'req.body' as it is undefined."

/-- JavaScript `!x` for a string that may be `undefined`. -/
def falsy : Option String → Bool
  | none => true
  | some s => s == ""

/-- The body `{ error: message }`. -/
def errorBody (message : String) : Json :=
  .obj [("error", .str message)]

/-- Result of `res.json` on a public user view. -/
def PublicUser.toJson (u : PublicUser) : Json :=
  .obj [("id", .num u.id), ("email", .str u.email), ("createdAt", .num u.createdAt)]

/-- Result of `res.json` on the result of `register` or `login`. -/
def AuthResult.toJson (r : AuthResult) : Json :=
  .obj [("user", r.user.toJson), ("token", .str r.token)]

/-- Handler `router.post('/register', ...)`. The destructuring of `req.body` is
the first statement of the `try`: on an `undefined` body it throws and the
`catch` answers 400 with the message of the `TypeError`. -/
def postRegister (E : Env) (now salt : Nat) (db : Db) (reqBody : Option Body) : Handled :=
  match reqBody with
  | none => ⟨⟨400, errorBody destructureError.message⟩, db, []⟩
  | some body =>
    if falsy body.email || falsy body.password then
      ⟨⟨400, errorBody "Email and password are required"⟩, db, []⟩
    else
      let email := body.email.getD ""
      let password := body.password.getD ""
      let o := AuthService.register E now salt db email password
      match o.result with
      | .ok result => ⟨⟨201, result.toJson⟩, o.db, .register email password :: o.calls⟩
      | .error error =>
        ⟨⟨400, errorBody error.message⟩, o.db, .register email password :: o.calls⟩

/-- Handler `router.post('/login', ...)`. On an `undefined` body the destructuring
throws inside the `try` and the `catch` answers 401 with the message of the
`TypeError`. -/
def postLogin (E : Env) (now : Nat) (db : Db) (reqBody : Option Body) : Handled :=
  match reqBody with
  | none => ⟨⟨401, errorBody destructureError.message⟩, db, []⟩
  | some body =>
    if falsy body.email || falsy body.password then
      ⟨⟨400, errorBody "Email and password are required"⟩, db, []⟩
    else
      let email := body.email.getD ""
      let password := body.password.getD ""
      let o := AuthService.login E now db email password
      match o.result with
      | .ok result => ⟨⟨200, result.toJson⟩, o.db, .login email password :: o.calls⟩
      | .error error =>
        ⟨⟨401, errorBody error.message⟩, o.db, .login email password :: o.calls⟩

/-- Call `s.replace(pat, '')` on characters, for a non-empty `pat`: the first
occurrence of `pat` is cut out, later ones stay. -/
def cutFirst (pat : List Char) : List Char → List Char
  | [] => []
  | c :: cs =>
    if pat.isPrefixOf (c :: cs) then (c :: cs).drop pat.length
    else c :: cutFirst pat cs

/-- Expression `req.headers.authorization?.replace('Bearer ', '')`. -/
def bearerToken (authorization : Option String) : Option String :=
  authorization.map fun h => String.mk (cutFirst "Bearer ".toList h.toList)

/-- Handler `router.get('/me', ...)`. -/
def getMe (E : Env) (now : Nat) (db : Db) (authorization : Option String) : Handled :=
  let token := bearerToken authorization
  if falsy token then
    ⟨⟨401, errorBody "No token provided"⟩, db, []⟩
  else
    let t := token.getD ""
    let o := AuthService.verifyToken E now db t
    match o.result with
    | .ok user => ⟨⟨200, .obj [("user", user.view.toJson)]⟩, o.db, .verifyToken t :: o.calls⟩
    | .error error => ⟨⟨401, errorBody error.message⟩, o.db, .verifyToken t :: o.calls⟩

/-! ## Concrete collaborators used to run the model -/

/-- The pieces of a character list between occurrences of `sep`. -/
def fieldsOn (sep : Char) : List Char → List (List Char)
  | [] => [[]]
  | c :: cs =>
    match fieldsOn sep cs with
    | [] => [[c]]
    | f :: fs => if c = sep then [] :: f :: fs else (c :: f) :: fs

/-- The number a list of decimal digits writes, `none` for any other text. -/
def readNat (cs : List Char) : Option Nat :=
  if cs = [] then none
  else cs.foldl (fun acc c => acc.bind fun n =>
    if c.isDigit then some (10 * n + (c.toNat - 48)) else none) (some 0)

/-- A stand-in for bcrypt, only to evaluate the model: the hash spells out the
rounds, the salt and the password, and the comparison reads the password back. -/
def toyBcrypt : Bcrypt where
  hashSync := fun password rounds salt =>
    "$2b$" ++ toString rounds ++ "$" ++ toString salt ++ "$" ++ password
  compareSync := fun password hash =>
    match fieldsOn '$' hash.toList with
    | [_, _, _, _, q] => q == password.toList
    | _ => false

/-- How the stand-in codec writes a `userId`: a number in digits, a text behind
a tilde, and `-` for the two values that match no row. -/
def writeParam : Param → String
  | .null => "-"
  | .number n => toString n
  | .offNumber => "-"
  | .text s => "~" ++ s

/-- How the stand-in codec reads a `userId` back. -/
def readParam : List Char → Param
  | '~' :: cs => .text (String.mk cs)
  | cs =>
    match readNat cs with
    | some n => .number n
    | none => .null

/-- A stand-in for jsonwebtoken, only to evaluate the model: the token spells out
the key and the payload, and decoding under a key reads them back when the key
is the one written in the token. -/
def toyJwt : JwtLib where
  encode := fun c key =>
    key ++ "|" ++ writeParam c.userId ++ "|" ++ toString c.iat ++ "|"
      ++ toString (c.exp.getD 0) ++ "|" ++ c.email
  decode := fun token key =>
    match fieldsOn '|' token.toList with
    | [k, uid, iat, exp, email] =>
      if k == key.toList then
        match readNat iat, readNat exp with
        | some i, some e => some ⟨readParam uid, String.mk email, i, some e⟩
        | _, _ => none
      else none
    | _ => none

/-- A stand-in for the way sqlite reads a text as a number, only to evaluate the
model: a text of decimal digits is the number it writes. -/
def toySqlite : Sqlite where
  numericText := fun s => readNat s.toList

/-- A process started without `JWT_SECRET`. -/
def toyEnv : Env := ⟨toyBcrypt, toyJwt, toySqlite, none⟩

/-- A process started with `JWT_SECRET=s3cret`. -/
def keyedEnv : Env := ⟨toyBcrypt, toyJwt, toySqlite, some "s3cret"⟩

/-- An empty, working database. -/
def emptyDb : Db := ⟨[], none⟩

/-- A database file without the table. -/
def brokenDb : Db := ⟨[], some "SQLITE_ERROR: no such table: users"⟩

/-- The store after `a@example.com` registered at second 1000 with salt 7. -/
def oneUserDb : Db :=
  ⟨[⟨1, "a@example.com", "$2b$10$7$pw12345", 1000⟩], none⟩

/-! ## Definitions used to state the properties -/

/-- The row that a successful insert appends. -/
def newRow (bc : Bcrypt) (now salt : Nat) (db : Db) (email password : String) : Row :=
  ⟨lastRowid db.rows + 1, email, bc.hashSync password 10 salt, now⟩

/-- The failure kinds of section 7 that the protocol can produce. -/
inductive Kind where
  | AlreadyExists
  | InvalidCredentials
  | InvalidToken
deriving DecidableEq, Repr

/-- The kind a thrown error stands for: the three errors that the service makes
itself have one; an error handed on from a library has none. -/
def Thrown.kind : Thrown → Option Kind
  | .error m =>
    if m = "User already exists" then some .AlreadyExists
    else if m = "Invalid email or password" then some .InvalidCredentials
    else if m = "Invalid token" then some .InvalidToken
    else none
  | _ => none

/-- What another request does to the store when it registers `a@example.com`
while the first call is suspended. -/
def rivalInsert (db : Db) : Db :=
  (User.create toyBcrypt 1000 3 db "a@example.com" "rival").2

/-- The JSON of the public view of a row: the three public columns, in the order
of the object literal. -/
def viewJson (row : Row) : Json :=
  .obj [("id", .num row.id), ("email", .str row.email), ("createdAt", .num row.created_at)]

/-- A token under the fallback key whose payload has `userId: '1'`, a string. -/
def textIdToken : String :=
  "your-secret-key-change-in-production|~1|1000|87400|a@example.com"

/-- A token that nobody was issued: written by someone who read line 7 of
`authService.js`, for user 1, with an expiry far ahead. -/
def forgedToken : String :=
  toyJwt.encode ⟨.number 1, "a@example.com", 5000, some 99999999⟩
    "your-secret-key-change-in-production"

/-! ## Facts about the store -/

theorem lastRowid_ge (rows : List Row) (r : Row) (h : r ∈ rows) :
    r.id ≤ lastRowid rows := by
  induction rows with
  | nil => cases h
  | cons a rest ih =>
    simp only [lastRowid, List.foldr_cons]
    rcases List.mem_cons.mp h with rfl | h1
    · exact Nat.le_max_left _ _
    · exact Nat.le_trans (ih h1) (Nat.le_max_right _ _)

theorem find_fresh_rowid (rows : List Row) (row : Row)
    (h : row.id = lastRowid rows + 1) :
    (rows ++ [row]).find? (fun r => r.id == lastRowid rows + 1) = some row := by
  rw [List.find?_append]
  have hnone : rows.find? (fun r => r.id == lastRowid rows + 1) = none := by
    rw [List.find?_eq_none]
    intro r hr
    have := lastRowid_ge rows r hr
    simp only [beq_iff_eq]
    omega
  simp [hnone, h]

theorem any_email_false_of_find_none (rows : List Row) (email : String)
    (h : rows.find? (fun r => r.email == email) = none) :
    rows.any (fun r => r.email == email) = false := by
  rw [List.find?_eq_none] at h
  rw [List.any_eq_false]
  exact h

theorem find_email_append_new (rows : List Row) (row : Row)
    (h : rows.find? (fun r => r.email == row.email) = none) :
    (rows ++ [row]).find? (fun r => r.email == row.email) = some row := by
  rw [List.find?_append, h]
  simp

/-- On a working store without a row for the email, `User.create` resolves to the
appended row and leaves the store with that one row added. -/
theorem create_fresh (bc : Bcrypt) (now salt : Nat) (db : Db) (email password : String)
    (hf : db.fault = none)
    (hnone : db.rows.find? (fun r => r.email == email) = none) :
    User.create bc now salt db email password =
      (.ok (User.ofRow (newRow bc now salt db email password)),
        ⟨db.rows ++ [newRow bc now salt db email password], none⟩) := by
  have hany := any_email_false_of_find_none db.rows email hnone
  have hfind := find_fresh_rowid db.rows (newRow bc now salt db email password) rfl
  cases db with
  | mk rows fault =>
    simp only at hf hany hfind
    subst hf
    simp only [User.create, Db.insert, hany, Db.get]
    simp only [newRow] at hfind ⊢
    simp [hfind]

/-- On a store that has a row for the email, `User.create` rejects with the
uniqueness violation of sqlite and leaves the store as it was. -/
theorem create_conflict (bc : Bcrypt) (now salt : Nat) (db : Db) (email password : String)
    (hf : db.fault = none) (row : Row)
    (hsome : db.rows.find? (fun r => r.email == email) = some row) :
    User.create bc now salt db email password = (.error (.sqlite uniqueViolation), db) := by
  have hany : db.rows.any (fun r => r.email == email) = true := by
    rw [List.any_eq_true]
    have hp := List.find?_some hsome
    exact ⟨row, List.mem_of_find?_eq_some hsome, hp⟩
  simp [User.create, Db.insert, hf, hany]

theorem create_fault (bc : Bcrypt) (now salt : Nat) (db : Db) (email password : String)
    (m : String) (hf : db.fault = some m) :
    User.create bc now salt db email password = (.error (.sqlite m), db) := by
  simp [User.create, Db.insert, hf]

theorem findByEmail_fault (db : Db) (email m : String) (hf : db.fault = some m) :
    User.findByEmail db email = .error (.sqlite m) := by
  simp [User.findByEmail, Db.get, hf]

theorem findByEmail_working (db : Db) (email : String) (hf : db.fault = none) :
    User.findByEmail db email =
      .ok ((db.rows.find? (fun r => r.email == email)).map User.ofRow) := by
  simp only [User.findByEmail, Db.get, hf]
  cases db.rows.find? (fun r => r.email == email) <;> rfl

theorem findById_fault (sq : Sqlite) (db : Db) (id : Param) (m : String)
    (hf : db.fault = some m) :
    User.findById sq db id = .error (.sqlite m) := by
  simp [User.findById, Db.get, hf]

theorem findById_working (sq : Sqlite) (db : Db) (id : Param) (hf : db.fault = none) :
    User.findById sq db id =
      .ok ((db.rows.find? (fun r => sq.idEq r.id id)).map User.ofRow) := by
  simp only [User.findById, Db.get, hf]
  cases db.rows.find? (fun r => sq.idEq r.id id) <;> rfl

/-! ## Facts about the service -/

open AuthService

theorem registerAmid_fault (E : Env) (others : Db → Db) (now salt : Nat) (db : Db)
    (email password m : String) (hf : db.fault = some m) :
    registerAmid E others now salt db email password =
      ⟨.error (.sqlite m), db, [.findByEmail email]⟩ := by
  simp [registerAmid, findByEmail_fault db email m hf]

theorem registerAmid_exists (E : Env) (others : Db → Db) (now salt : Nat) (db : Db)
    (email password : String) (row : Row) (hf : db.fault = none)
    (hsome : db.rows.find? (fun r => r.email == email) = some row) :
    registerAmid E others now salt db email password =
      ⟨.error (.error "User already exists"), db, [.findByEmail email]⟩ := by
  simp [registerAmid, findByEmail_working db email hf, hsome]

theorem registerAmid_absent (E : Env) (others : Db → Db) (now salt : Nat) (db : Db)
    (email password : String) (hf : db.fault = none)
    (hnone : db.rows.find? (fun r => r.email == email) = none) :
    registerAmid E others now salt db email password =
      match User.create E.bcrypt now salt (others db) email password with
      | (.error err, db1) =>
        ⟨.error err, db1, [.findByEmail email, .create email password]⟩
      | (.ok user, db1) =>
        ⟨.ok ⟨user.view, generateToken E now user⟩, db1,
          [.findByEmail email, .create email password]⟩ := by
  simp [registerAmid, findByEmail_working db email hf, hnone]

theorem register_fresh (E : Env) (now salt : Nat) (db : Db) (email password : String)
    (hf : db.fault = none)
    (hnone : db.rows.find? (fun r => r.email == email) = none) :
    register E now salt db email password =
      ⟨.ok ⟨(User.ofRow (newRow E.bcrypt now salt db email password)).view,
          generateToken E now (User.ofRow (newRow E.bcrypt now salt db email password))⟩,
        ⟨db.rows ++ [newRow E.bcrypt now salt db email password], none⟩,
        [.findByEmail email, .create email password]⟩ := by
  rw [register, registerAmid_absent E id now salt db email password hf hnone]
  simp only [id, create_fresh E.bcrypt now salt db email password hf hnone]

/-- The three ways a sequential `register` can go. -/
theorem register_cases (E : Env) (now salt : Nat) (db : Db) (email password : String) :
    (∃ m, db.fault = some m ∧
        register E now salt db email password =
          ⟨.error (.sqlite m), db, [.findByEmail email]⟩) ∨
    (∃ row, db.fault = none ∧
        db.rows.find? (fun r => r.email == email) = some row ∧
        register E now salt db email password =
          ⟨.error (.error "User already exists"), db, [.findByEmail email]⟩) ∨
    (db.fault = none ∧ db.rows.find? (fun r => r.email == email) = none ∧
        register E now salt db email password =
          ⟨.ok ⟨(User.ofRow (newRow E.bcrypt now salt db email password)).view,
              generateToken E now (User.ofRow (newRow E.bcrypt now salt db email password))⟩,
            ⟨db.rows ++ [newRow E.bcrypt now salt db email password], none⟩,
            [.findByEmail email, .create email password]⟩) := by
  cases hf : db.fault with
  | some m => exact Or.inl ⟨m, rfl, registerAmid_fault E id now salt db email password m hf⟩
  | none =>
    cases hfind : db.rows.find? (fun r => r.email == email) with
    | some row =>
      exact Or.inr (Or.inl ⟨row, rfl, rfl,
        registerAmid_exists E id now salt db email password row hf hfind⟩)
    | none =>
      exact Or.inr (Or.inr ⟨rfl, rfl, register_fresh E now salt db email password hf hfind⟩)

/-- What a successful sequential `register` did. -/
theorem register_ok (E : Env) (now salt : Nat) (db : Db) (email password : String)
    (r : AuthResult) (h : (register E now salt db email password).result = .ok r) :
    db.fault = none ∧ db.rows.find? (fun r => r.email == email) = none ∧
    register E now salt db email password =
      ⟨.ok ⟨(User.ofRow (newRow E.bcrypt now salt db email password)).view,
          generateToken E now (User.ofRow (newRow E.bcrypt now salt db email password))⟩,
        ⟨db.rows ++ [newRow E.bcrypt now salt db email password], none⟩,
        [.findByEmail email, .create email password]⟩ := by
  rcases register_cases E now salt db email password with
    ⟨m, _, heq⟩ | ⟨row, _, _, heq⟩ | ⟨hf, hnone, heq⟩
  · rw [heq] at h; cases h
  · rw [heq] at h; cases h
  · exact ⟨hf, hnone, heq⟩

theorem login_fault (E : Env) (now : Nat) (db : Db) (email password m : String)
    (hf : db.fault = some m) :
    login E now db email password = ⟨.error (.sqlite m), db, [.findByEmail email]⟩ := by
  simp [login, findByEmail_fault db email m hf]

theorem login_absent (E : Env) (now : Nat) (db : Db) (email password : String)
    (h : User.findByEmail db email = .ok none) :
    login E now db email password =
      ⟨.error (.error "Invalid email or password"), db, [.findByEmail email]⟩ := by
  simp [login, h]

theorem login_found (E : Env) (now : Nat) (db : Db) (email password : String) (user : User)
    (h : User.findByEmail db email = .ok (some user)) :
    login E now db email password =
      if user.verifyPassword E.bcrypt password then
        ⟨.ok ⟨user.view, generateToken E now user⟩, db, [.findByEmail email]⟩
      else
        ⟨.error (.error "Invalid email or password"), db, [.findByEmail email]⟩ := by
  simp only [login, h]
  cases user.verifyPassword E.bcrypt password <;> simp

/-! ## C1 and C2: registration followed by login or by a second registration -/

/-- C1 (round trip). When `register(e, p)` succeeds with result `r` (which it only
does on a store without a record for `e`) and the verifier of bcrypt accepts `p`
against the hash it made from `p`, a following `login(e, p)` on the store that
`register` left succeeds, at any later time, with a user of the same `id` and
`email` as `r.user`. -/
theorem register_then_login (E : Env) (now salt later : Nat) (db : Db)
    (e p : String) (r : AuthResult)
    (hreg : (register E now salt db e p).result = .ok r)
    (hbcrypt : E.bcrypt.compareSync p (E.bcrypt.hashSync p 10 salt) = true) :
    ∃ r2, (login E later (register E now salt db e p).db e p).result = .ok r2 ∧
      r2.user.id = r.user.id ∧ r2.user.email = r.user.email := by
  obtain ⟨_, hnone, heq⟩ := register_ok E now salt db e p r hreg
  rw [heq] at hreg ⊢
  simp only [Except.ok.injEq] at hreg
  subst hreg
  have hfind : User.findByEmail ⟨db.rows ++ [newRow E.bcrypt now salt db e p], none⟩ e =
      .ok (some (User.ofRow (newRow E.bcrypt now salt db e p))) := by
    rw [findByEmail_working _ _ rfl]
    have := find_email_append_new db.rows (newRow E.bcrypt now salt db e p) hnone
    simp only [newRow] at this ⊢
    simp [this]
  rw [login_found E later _ e p _ hfind]
  have hv : (User.ofRow (newRow E.bcrypt now salt db e p)).verifyPassword E.bcrypt p = true := by
    simpa [User.verifyPassword, User.ofRow, newRow] using hbcrypt
  simp only [hv, if_true]
  exact ⟨_, rfl, rfl, rfl⟩

/-- C1 at a concrete input: `a@example.com` registers on the empty store and
logs in 50 seconds later. -/
theorem register_then_login_witness :
    ∃ r2, (login toyEnv 1050
        (register toyEnv 1000 7 emptyDb "a@example.com" "pw12345").db
        "a@example.com" "pw12345").result = .ok r2 ∧
      r2.user.id = 1 ∧ r2.user.email = "a@example.com" :=
  register_then_login toyEnv 1000 7 1050 emptyDb "a@example.com" "pw12345"
    ⟨⟨1, "a@example.com", 1000⟩,
      "your-secret-key-change-in-production|1|1000|87400|a@example.com"⟩ rfl (by decide)

/-- C2 (uniqueness, sequential). When `register(e, p1)` has succeeded, a following
`register(e, p2)` on the store it left fails with `Error('User already exists')`,
calls `User.findByEmail` only (so never `User.create`), leaves the store as it
was, and the store holds exactly one record with email `e`. -/
theorem register_twice (E : Env) (now salt now2 salt2 : Nat) (db : Db)
    (e p1 p2 : String) (r : AuthResult)
    (hreg : (register E now salt db e p1).result = .ok r) :
    (register E now2 salt2 (register E now salt db e p1).db e p2).result =
        .error (.error "User already exists") ∧
    (register E now2 salt2 (register E now salt db e p1).db e p2).calls =
        [.findByEmail e] ∧
    (∀ e2 p, Event.create e2 p ∉
        (register E now2 salt2 (register E now salt db e p1).db e p2).calls) ∧
    (register E now2 salt2 (register E now salt db e p1).db e p2).db =
        (register E now salt db e p1).db ∧
    ((register E now2 salt2 (register E now salt db e p1).db e p2).db.rows.filter
        (fun row => row.email == e)).length = 1 := by
  obtain ⟨_, hnone, heq⟩ := register_ok E now salt db e p1 r hreg
  rw [heq]
  simp only
  have hfind := find_email_append_new db.rows (newRow E.bcrypt now salt db e p1) hnone
  have hsecond := registerAmid_exists E id now2 salt2
    ⟨db.rows ++ [newRow E.bcrypt now salt db e p1], none⟩ e p2 _ rfl hfind
  rw [register, hsecond]
  refine ⟨rfl, rfl, ?_, rfl, ?_⟩
  · intro e2 p
    simp
  · simp only [List.filter_append]
    have hold : db.rows.filter (fun row => row.email == e) = [] := by
      rw [List.filter_eq_nil_iff]
      rw [List.find?_eq_none] at hnone
      exact hnone
    rw [hold]
    simp [newRow]

/-- C2 at a concrete input: the second registration of `a@example.com`. -/
theorem register_twice_witness :
    (register toyEnv 2000 9 (register toyEnv 1000 7 emptyDb "a@example.com" "pw12345").db
        "a@example.com" "other").result = .error (.error "User already exists") :=
  (register_twice toyEnv 1000 7 2000 9 emptyDb "a@example.com" "pw12345" "other"
    ⟨⟨1, "a@example.com", 1000⟩,
      "your-secret-key-change-in-production|1|1000|87400|a@example.com"⟩ rfl).1

/-! ## C3: which errors reach the caller of `register` and `login` -/

/-- The three ways `User.create` can go, on any store. -/
theorem create_cases (bc : Bcrypt) (now salt : Nat) (db : Db) (email password : String) :
    (∃ m, db.fault = some m ∧
        User.create bc now salt db email password = (.error (.sqlite m), db)) ∨
    (∃ row, db.fault = none ∧ db.rows.find? (fun r => r.email == email) = some row ∧
        User.create bc now salt db email password =
          (.error (.sqlite uniqueViolation), db)) ∨
    (db.fault = none ∧ db.rows.find? (fun r => r.email == email) = none ∧
        User.create bc now salt db email password =
          (.ok (User.ofRow (newRow bc now salt db email password)),
            ⟨db.rows ++ [newRow bc now salt db email password], none⟩)) := by
  cases hf : db.fault with
  | some m => exact Or.inl ⟨m, rfl, create_fault bc now salt db email password m hf⟩
  | none =>
    cases hfind : db.rows.find? (fun r => r.email == email) with
    | some row =>
      exact Or.inr (Or.inl ⟨row, rfl, rfl,
        create_conflict bc now salt db email password hf row hfind⟩)
    | none =>
      exact Or.inr (Or.inr ⟨rfl, rfl, create_fresh bc now salt db email password hf hfind⟩)

/-- C3 fails as stated. First run: `register("a@example.com", "pw12345")` starts on
the empty store, `findByEmail` finds nothing, another request inserts the same
email while the call is suspended, and `register` rejects with the error object
of sqlite, text `SQLITE_CONSTRAINT: UNIQUE constraint failed: users.email`, which
is none of the kinds. Second run: `login` on a database file without the table
rejects with the driver error unchanged. -/
theorem storage_error_reaches_caller :
    (registerAmid toyEnv rivalInsert 1001 7 emptyDb "a@example.com" "pw12345").result =
        .error (.sqlite "SQLITE_CONSTRAINT: UNIQUE constraint failed: users.email") ∧
    (Thrown.sqlite "SQLITE_CONSTRAINT: UNIQUE constraint failed: users.email").kind = none ∧
    (registerAmid toyEnv rivalInsert 1001 7 emptyDb "a@example.com" "pw12345").result ≠
        .error (.error "User already exists") ∧
    User.findByEmail emptyDb "a@example.com" = .ok none ∧
    (login toyEnv 1000 brokenDb "a@example.com" "pw12345").result =
        .error (.sqlite "SQLITE_ERROR: no such table: users") ∧
    User.findByEmail brokenDb "a@example.com" =
        .error (.sqlite "SQLITE_ERROR: no such table: users") := by
  refine ⟨rfl, rfl, ?_, rfl, rfl, rfl⟩
  intro h
  have h2 : (registerAmid toyEnv rivalInsert 1001 7 emptyDb "a@example.com" "pw12345").result =
      .error (.sqlite "SQLITE_CONSTRAINT: UNIQUE constraint failed: users.email") := rfl
  rw [h2] at h
  cases h

/-- C3 as amended. `register`, also when other requests change the store while it
is suspended, settles in exactly one of these ways: the lookup fails and the
driver error is passed on unchanged; the lookup finds a record and the error is
`User already exists`; `User.create` meets a faulty store or a record with the
email (the race) and the driver error, for the race the uniqueness violation of
sqlite, is passed on unchanged; or it succeeds. `login` settles with the driver
error of the lookup unchanged, with `Invalid email or password`, or succeeds. -/
theorem failures_of_register_and_login (E : Env) (others : Db → Db) (now salt : Nat)
    (db : Db) (e p : String) :
    ((∃ m, db.fault = some m ∧
        (registerAmid E others now salt db e p).result = .error (.sqlite m)) ∨
     (∃ u, User.findByEmail db e = .ok (some u) ∧
        (registerAmid E others now salt db e p).result =
          .error (.error "User already exists")) ∨
     (∃ m, User.findByEmail db e = .ok none ∧ (others db).fault = some m ∧
        (registerAmid E others now salt db e p).result = .error (.sqlite m)) ∨
     (∃ row, User.findByEmail db e = .ok none ∧ (others db).fault = none ∧
        (others db).rows.find? (fun r => r.email == e) = some row ∧
        (registerAmid E others now salt db e p).result =
          .error (.sqlite uniqueViolation)) ∨
     (∃ r, User.findByEmail db e = .ok none ∧
        (registerAmid E others now salt db e p).result = .ok r)) ∧
    ((∃ m, db.fault = some m ∧ (login E now db e p).result = .error (.sqlite m)) ∨
     (login E now db e p).result = .error (.error "Invalid email or password") ∨
     (∃ r, (login E now db e p).result = .ok r)) := by
  constructor
  · cases hf : db.fault with
    | some m =>
      exact Or.inl ⟨m, rfl, by rw [registerAmid_fault E others now salt db e p m hf]⟩
    | none =>
      cases hfind : db.rows.find? (fun r => r.email == e) with
      | some row =>
        refine Or.inr (Or.inl ⟨User.ofRow row, ?_, ?_⟩)
        · rw [findByEmail_working db e hf, hfind]; rfl
        · rw [registerAmid_exists E others now salt db e p row hf hfind]
      | none =>
        have hlook : User.findByEmail db e = .ok none := by
          rw [findByEmail_working db e hf, hfind]; rfl
        rw [registerAmid_absent E others now salt db e p hf hfind]
        rcases create_cases E.bcrypt now salt (others db) e p with
          ⟨m, hm, hc⟩ | ⟨row, hw, hrow, hc⟩ | ⟨_, _, hc⟩
        · exact Or.inr (Or.inr (Or.inl ⟨m, hlook, hm, by rw [hc]⟩))
        · exact Or.inr (Or.inr (Or.inr (Or.inl ⟨row, hlook, hw, hrow, by rw [hc]⟩)))
        · exact Or.inr (Or.inr (Or.inr (Or.inr ⟨_, hlook, by rw [hc]⟩)))
  · cases hf : db.fault with
    | some m => exact Or.inl ⟨m, rfl, by rw [login_fault E now db e p m hf]⟩
    | none =>
      cases hfind : db.rows.find? (fun r => r.email == e) with
      | none =>
        have hlook : User.findByEmail db e = .ok none := by
          rw [findByEmail_working db e hf, hfind]; rfl
        exact Or.inr (Or.inl (by rw [login_absent E now db e p hlook]))
      | some row =>
        have hlook : User.findByEmail db e = .ok (some (User.ofRow row)) := by
          rw [findByEmail_working db e hf, hfind]; rfl
        rw [login_found E now db e p _ hlook]
        cases (User.ofRow row).verifyPassword E.bcrypt p
        · exact Or.inr (Or.inl rfl)
        · exact Or.inr (Or.inr ⟨_, rfl⟩)

/-! ## C4: the two failures of `login` look the same -/

/-- C4 (non-enumeration). On any store, when `findByEmail(e1)` finds no record,
`findByEmail(e2)` finds the record `u`, and the verifier rejects `p2` for the hash
of `u`, then `login(e1, p1)` for any password `p1` and `login(e2, p2)` settle with
the same result, the error `Invalid email or password` of kind
InvalidCredentials, and leave the same store. -/
theorem login_failures_alike (E : Env) (now1 now2 : Nat) (db : Db)
    (e1 p1 e2 p2 : String) (u : User)
    (h1 : User.findByEmail db e1 = .ok none)
    (h2 : User.findByEmail db e2 = .ok (some u))
    (hp : u.verifyPassword E.bcrypt p2 = false) :
    (login E now1 db e1 p1).result = (login E now2 db e2 p2).result ∧
    (login E now1 db e1 p1).result = .error (.error "Invalid email or password") ∧
    (Thrown.error "Invalid email or password").kind = some .InvalidCredentials ∧
    (login E now1 db e1 p1).db = (login E now2 db e2 p2).db := by
  rw [login_absent E now1 db e1 p1 h1, login_found E now2 db e2 p2 u h2, hp]
  exact ⟨rfl, rfl, rfl, rfl⟩

/-- C4 at a concrete input: an unknown email against a wrong password for the
registered `a@example.com`. -/
theorem login_failures_alike_witness :
    (login toyEnv 2000 oneUserDb "unknown@x.com" "any").result =
      (login toyEnv 2001 oneUserDb "a@example.com" "wrongpassword").result :=
  (login_failures_alike toyEnv 2000 2001 oneUserDb "unknown@x.com" "any"
    "a@example.com" "wrongpassword" ⟨1, "a@example.com", "$2b$10$7$pw12345", 1000⟩
    rfl rfl (by decide)).1

/-! ## C5: `verifyToken` -/

/-- Method `verifyToken` never touches the store and settles as its `try` block does,
except that every error becomes `Invalid token`. -/
theorem verifyToken_eq (E : Env) (now : Nat) (db : Db) (token : String) :
    verifyToken E now db token =
      match E.jwt.verify now token (JWT_SECRET E.secretVar) with
      | .error _ => ⟨.error (.error "Invalid token"), db, []⟩
      | .ok decoded =>
        match User.findById E.sqlite db decoded.userId with
        | .ok (some user) => ⟨.ok user, db, [.findById decoded.userId]⟩
        | _ => ⟨.error (.error "Invalid token"), db, [.findById decoded.userId]⟩ := by
  unfold verifyToken verifyTokenTry
  cases E.jwt.verify now token (JWT_SECRET E.secretVar) with
  | error err => rfl
  | ok decoded =>
    simp only
    cases User.findById E.sqlite db decoded.userId with
    | error err => rfl
    | ok found => cases found <;> rfl

/-- A record that `findById` resolves to is a row of the store whose id sqlite
found equal to the value looked up. -/
theorem findById_some (sq : Sqlite) (db : Db) (id : Param) (u : User)
    (h : User.findById sq db id = .ok (some u)) :
    sq.idEq u.id id = true ∧ ∃ row ∈ db.rows, u = User.ofRow row := by
  cases hf : db.fault with
  | some m => rw [findById_fault sq db id m hf] at h; cases h
  | none =>
    rw [findById_working sq db id hf] at h
    cases hfind : db.rows.find? (fun r => sq.idEq r.id id) with
    | none => rw [hfind] at h; cases h
    | some row =>
      rw [hfind] at h
      simp only [Option.map_some', Except.ok.injEq, Option.some.injEq] at h
      subst h
      have hp := List.find?_some hfind
      exact ⟨hp, row, List.mem_of_find?_eq_some hfind, rfl⟩

/-- On a number, the comparison of sqlite is equality of numbers. -/
theorem idEq_number (sq : Sqlite) (id n : Nat) (h : sq.idEq id (.number n) = true) :
    id = n := by
  simpa [Sqlite.idEq] using h

/-- C5 fails as stated, in its success case. The token's payload carries
`userId: '1'`, a string, signed under the key in use. `jwt.verify` returns that
payload, `findById('1')` hands the text to sqlite, sqlite reads it as the number
1 and finds row 1, and `verifyToken` returns the user whose id is the number 1:
a value that is not the token's `userId`, the text `'1'`. The call does not fail
with `Invalid token` either. -/
theorem verifyToken_text_id :
    toyEnv.jwt.verify 1001 textIdToken (JWT_SECRET toyEnv.secretVar) =
        .ok ⟨.text "1", "a@example.com", 1000, some 87400⟩ ∧
    (verifyToken toyEnv 1001 oneUserDb textIdToken).result =
        .ok ⟨1, "a@example.com", "$2b$10$7$pw12345", 1000⟩ ∧
    Param.number 1 ≠ Param.text "1" ∧
    (verifyToken toyEnv 1001 oneUserDb textIdToken).result ≠
        .error (.error "Invalid token") := by
  refine ⟨rfl, rfl, by decide, ?_⟩
  intro h
  have h2 : (verifyToken toyEnv 1001 oneUserDb textIdToken).result =
      .ok ⟨1, "a@example.com", "$2b$10$7$pw12345", 1000⟩ := rfl
  rw [h2] at h
  cases h

/-- C5 as amended. For every token string, time and store, `verifyToken` settles
in one of two ways and no other. Either the codec accepts the token, `findById`
of the decoded `userId` finds the record `u`, and the call returns `u`: a record
of the store whose id sqlite found equal to that `userId`: for a `userId` that
is a number the id is that number, for a `userId` that is a text the id is the
number sqlite reads the text as. Or it rejects with
`Error('Invalid token')`; this is what happens when the codec rejects the token
(malformed, bad signature, expired), when `findById` finds no record, and when
`findById` fails with a store error. -/
theorem verifyToken_result (E : Env) (now : Nat) (db : Db) (token : String) :
    ((∃ c u, E.jwt.verify now token (JWT_SECRET E.secretVar) = .ok c ∧
        User.findById E.sqlite db c.userId = .ok (some u) ∧
        (verifyToken E now db token).result = .ok u ∧
        E.sqlite.idEq u.id c.userId = true ∧
        (∀ n, c.userId = .number n → u.id = n) ∧
        (∀ t, c.userId = .text t → E.sqlite.numericText t = some u.id) ∧
        ∃ row ∈ db.rows, u = User.ofRow row) ∨
     (verifyToken E now db token).result = .error (.error "Invalid token")) ∧
    (∀ err, E.jwt.verify now token (JWT_SECRET E.secretVar) = .error err →
        (verifyToken E now db token).result = .error (.error "Invalid token")) ∧
    (∀ c, E.jwt.verify now token (JWT_SECRET E.secretVar) = .ok c →
        User.findById E.sqlite db c.userId = .ok none →
        (verifyToken E now db token).result = .error (.error "Invalid token")) ∧
    (∀ c err, E.jwt.verify now token (JWT_SECRET E.secretVar) = .ok c →
        User.findById E.sqlite db c.userId = .error err →
        (verifyToken E now db token).result = .error (.error "Invalid token")) := by
  rw [verifyToken_eq]
  refine ⟨?_, ?_, ?_, ?_⟩
  · cases hv : E.jwt.verify now token (JWT_SECRET E.secretVar) with
    | error err => exact Or.inr rfl
    | ok c =>
      simp only []
      cases hfind : User.findById E.sqlite db c.userId with
      | error err => exact Or.inr rfl
      | ok found =>
        cases found with
        | none => exact Or.inr rfl
        | some u =>
          obtain ⟨hid, hrow⟩ := findById_some E.sqlite db c.userId u hfind
          refine Or.inl ⟨c, u, rfl, hfind, rfl, hid, ?_, ?_, hrow⟩
          · intro n hn
            rw [hn] at hid
            exact idEq_number E.sqlite u.id n hid
          · intro t ht
            rw [ht] at hid
            simpa [Sqlite.idEq] using hid
  · intro err hv
    rw [hv]
  · intro c hv hfind
    rw [hv]
    simp only [hfind]
  · intro c err hv hfind
    rw [hv]
    simp only [hfind]

/-- C5 at concrete inputs: a token signed under another key, a token for a user
that is not in the store, and a good token against a database file without the
table, all settle with `Invalid token`. -/
theorem verifyToken_result_witness :
    (verifyToken toyEnv 1001 oneUserDb "wrong-key|1|1000|87400|a@example.com").result =
        .error (.error "Invalid token") ∧
    (verifyToken toyEnv 1001 oneUserDb
        "your-secret-key-change-in-production|5|1000|87400|e@example.com").result =
        .error (.error "Invalid token") ∧
    (verifyToken toyEnv 1001 brokenDb
        "your-secret-key-change-in-production|1|1000|87400|a@example.com").result =
        .error (.error "Invalid token") :=
  ⟨(verifyToken_result toyEnv 1001 oneUserDb
      "wrong-key|1|1000|87400|a@example.com").2.1 _ rfl,
   (verifyToken_result toyEnv 1001 oneUserDb
      "your-secret-key-change-in-production|5|1000|87400|e@example.com").2.2.1
      ⟨.number 5, "e@example.com", 1000, some 87400⟩ rfl rfl,
   (verifyToken_result toyEnv 1001 brokenDb
      "your-secret-key-change-in-production|1|1000|87400|a@example.com").2.2.2
      ⟨.number 1, "a@example.com", 1000, some 87400⟩ _ rfl rfl⟩

/-! ## C6: the validity window of a token -/

/-- C6 (token validity window). Let `row` be a record of a working store and let
the codec read back, under the signing key, the payload it encoded. The token
that `generateToken` issues for the record at second `t` is the encoding of
`userId = row.id`, `email = row.email`, `iat = t`, `exp = t + 86400` (24 hours)
under `JWT_SECRET`. At every second before `t + 86400`, `verifyToken` of it returns
a user with id `row.id`; from second `t + 86400` on (so at every time after it)
`verifyToken` rejects with `Invalid token`, although the token decodes under the
key. -/
theorem token_window (E : Env) (t : Nat) (db : Db) (row : Row)
    (hf : db.fault = none) (hrow : row ∈ db.rows)
    (hcodec : E.jwt.decode
        (E.jwt.encode ⟨.number row.id, row.email, t, some (t + 86400)⟩ (JWT_SECRET E.secretVar))
        (JWT_SECRET E.secretVar) = some ⟨.number row.id, row.email, t, some (t + 86400)⟩) :
    generateToken E t (User.ofRow row) =
        E.jwt.encode ⟨.number row.id, row.email, t, some (t + 86400)⟩ (JWT_SECRET E.secretVar) ∧
    (∀ now, now < t + 86400 →
        ∃ v, (verifyToken E now db (generateToken E t (User.ofRow row))).result = .ok v ∧
          v.id = row.id) ∧
    (∀ now, t + 86400 ≤ now →
        (verifyToken E now db (generateToken E t (User.ofRow row))).result =
          .error (.error "Invalid token")) := by
  have htok : generateToken E t (User.ofRow row) =
      E.jwt.encode ⟨.number row.id, row.email, t, some (t + 86400)⟩ (JWT_SECRET E.secretVar) := rfl
  refine ⟨htok, ?_, ?_⟩
  · intro now hnow
    have hv : E.jwt.verify now (generateToken E t (User.ofRow row)) (JWT_SECRET E.secretVar) =
        .ok ⟨.number row.id, row.email, t, some (t + 86400)⟩ := by
      rw [htok]
      simp only [JwtLib.verify, hcodec]
      rw [if_neg (by omega)]
    obtain ⟨found, hfound⟩ : ∃ found,
        db.rows.find? (fun r => E.sqlite.idEq r.id (.number row.id)) = some found := by
      cases hfind : db.rows.find? (fun r => E.sqlite.idEq r.id (.number row.id)) with
      | some found => exact ⟨found, rfl⟩
      | none =>
        rw [List.find?_eq_none] at hfind
        exact absurd (by simp [Sqlite.idEq]) (hfind row hrow)
    have hid : found.id = row.id := by
      have hp := List.find?_some hfound
      exact idEq_number E.sqlite found.id row.id hp
    rw [verifyToken_eq, hv]
    simp only [findById_working E.sqlite db _ hf, hfound]
    exact ⟨User.ofRow found, rfl, hid⟩
  · intro now hnow
    have hv : E.jwt.verify now (generateToken E t (User.ofRow row)) (JWT_SECRET E.secretVar) =
        .error (.jwt "TokenExpiredError" "jwt expired") := by
      rw [htok]
      simp only [JwtLib.verify, hcodec]
      rw [if_pos (by omega)]
    rw [verifyToken_eq, hv]

/-- C6 at a concrete input: the token issued at second 1000 for `a@example.com` is
accepted one second before its expiry and rejected one second after. -/
theorem token_window_witness :
    (∃ v, (verifyToken toyEnv 87399 oneUserDb
        (generateToken toyEnv 1000 ⟨1, "a@example.com", "$2b$10$7$pw12345", 1000⟩)).result =
          .ok v ∧ v.id = 1) ∧
    (verifyToken toyEnv 87401 oneUserDb
        (generateToken toyEnv 1000 ⟨1, "a@example.com", "$2b$10$7$pw12345", 1000⟩)).result =
          .error (.error "Invalid token") :=
  ⟨(token_window toyEnv 1000 oneUserDb ⟨1, "a@example.com", "$2b$10$7$pw12345", 1000⟩
      rfl (by decide) rfl).2.1 87399 (by decide),
   (token_window toyEnv 1000 oneUserDb ⟨1, "a@example.com", "$2b$10$7$pw12345", 1000⟩
      rfl (by decide) rfl).2.2 87401 (by decide)⟩

/-! ## Facts about the routes -/

theorem falsy_eq_true_iff (x : Option String) :
    falsy x = true ↔ x = none ∨ x = some "" := by
  cases x with
  | none => simp [falsy]
  | some s => simp [falsy]

theorem postRegister_missing (E : Env) (now salt : Nat) (db : Db) (body : Body)
    (h : (falsy body.email || falsy body.password) = true) :
    postRegister E now salt db (some body) =
      ⟨⟨400, errorBody "Email and password are required"⟩, db, []⟩ := by
  simp only [postRegister, h, if_true]

theorem postLogin_missing (E : Env) (now : Nat) (db : Db) (body : Body)
    (h : (falsy body.email || falsy body.password) = true) :
    postLogin E now db (some body) =
      ⟨⟨400, errorBody "Email and password are required"⟩, db, []⟩ := by
  simp only [postLogin, h, if_true]

theorem postRegister_present (E : Env) (now salt : Nat) (db : Db) (e p : String)
    (he : e ≠ "") (hp : p ≠ "") :
    postRegister E now salt db (some ⟨some e, some p⟩) =
      match (register E now salt db e p).result with
      | .ok result =>
        ⟨⟨201, result.toJson⟩, (register E now salt db e p).db,
          .register e p :: (register E now salt db e p).calls⟩
      | .error error =>
        ⟨⟨400, errorBody error.message⟩, (register E now salt db e p).db,
          .register e p :: (register E now salt db e p).calls⟩ := by
  have h : (falsy (some e) || falsy (some p)) = false := by simp [falsy, he, hp]
  simp only [postRegister, h, Option.getD_some]
  rfl

theorem postLogin_present (E : Env) (now : Nat) (db : Db) (e p : String)
    (he : e ≠ "") (hp : p ≠ "") :
    postLogin E now db (some ⟨some e, some p⟩) =
      match (login E now db e p).result with
      | .ok result =>
        ⟨⟨200, result.toJson⟩, (login E now db e p).db,
          .login e p :: (login E now db e p).calls⟩
      | .error error =>
        ⟨⟨401, errorBody error.message⟩, (login E now db e p).db,
          .login e p :: (login E now db e p).calls⟩ := by
  have h : (falsy (some e) || falsy (some p)) = false := by simp [falsy, he, hp]
  simp only [postLogin, h, Option.getD_some]
  rfl

/-- A body has both fields present and non-empty exactly when the guard of the
two POST handlers lets it through. -/
theorem guard_false_iff (body : Body) :
    (falsy body.email || falsy body.password) = false ↔
      ∃ e p, body = ⟨some e, some p⟩ ∧ e ≠ "" ∧ p ≠ "" := by
  cases body with
  | mk email password =>
    cases email with
    | none => simp [falsy]
    | some e =>
      cases password with
      | none => simp [falsy]
      | some p =>
        simp only [falsy, Bool.or_eq_false_iff, beq_eq_false_iff_ne, ne_eq, Body.mk.injEq,
          Option.some.injEq]
        constructor
        · intro h
          exact ⟨e, p, ⟨rfl, rfl⟩, h⟩
        · rintro ⟨e1, p1, ⟨rfl, rfl⟩, h⟩
          exact h

/-- The user that a successful sequential `register` returns is the public view
of a row of the store it leaves. -/
theorem register_ok_view (E : Env) (now salt : Nat) (db : Db) (e p : String)
    (r : AuthResult) (h : (register E now salt db e p).result = .ok r) :
    ∃ row ∈ (register E now salt db e p).db.rows, row.email = e ∧
      r = ⟨⟨row.id, row.email, row.created_at⟩, generateToken E now (User.ofRow row)⟩ := by
  obtain ⟨_, _, heq⟩ := register_ok E now salt db e p r h
  rw [heq] at h ⊢
  simp only [Except.ok.injEq] at h
  exact ⟨newRow E.bcrypt now salt db e p, by simp, rfl, h.symm⟩

/-- The user that a successful `login` returns is the public view of a row of the
store. -/
theorem login_ok_view (E : Env) (now : Nat) (db : Db) (e p : String)
    (r : AuthResult) (h : (login E now db e p).result = .ok r) :
    ∃ row ∈ db.rows, row.email = e ∧
      r = ⟨⟨row.id, row.email, row.created_at⟩, generateToken E now (User.ofRow row)⟩ := by
  cases hf : db.fault with
  | some m => rw [login_fault E now db e p m hf] at h; cases h
  | none =>
    cases hfind : db.rows.find? (fun r => r.email == e) with
    | none =>
      have hlook : User.findByEmail db e = .ok none := by
        rw [findByEmail_working db e hf, hfind]; rfl
      rw [login_absent E now db e p hlook] at h; cases h
    | some row =>
      have hlook : User.findByEmail db e = .ok (some (User.ofRow row)) := by
        rw [findByEmail_working db e hf, hfind]; rfl
      rw [login_found E now db e p _ hlook] at h
      cases hv : (User.ofRow row).verifyPassword E.bcrypt p with
      | false => rw [hv] at h; cases h
      | true =>
        rw [hv] at h
        simp only [if_true, Except.ok.injEq] at h
        have hp := List.find?_some hfind
        exact ⟨row, List.mem_of_find?_eq_some hfind, by simpa using hp, h.symm⟩

/-- The record that a successful `verifyToken` returns is a row of the store,
password hash included. -/
theorem verifyToken_ok (E : Env) (now : Nat) (db : Db) (token : String) (u : User)
    (h : (verifyToken E now db token).result = .ok u) :
    ∃ row ∈ db.rows, u = User.ofRow row := by
  rw [verifyToken_eq] at h
  cases hv : E.jwt.verify now token (JWT_SECRET E.secretVar) with
  | error err => rw [hv] at h; cases h
  | ok c =>
    rw [hv] at h
    simp only [] at h
    cases hfind : User.findById E.sqlite db c.userId with
    | error err => rw [hfind] at h; cases h
    | ok found =>
      cases found with
      | none => rw [hfind] at h; cases h
      | some v =>
        rw [hfind] at h
        simp only [Except.ok.injEq] at h
        subst h
        exact (findById_some E.sqlite db c.userId v hfind).2

theorem verifyToken_db (E : Env) (now : Nat) (db : Db) (token : String) :
    (verifyToken E now db token).db = db := by
  rw [verifyToken_eq]
  cases E.jwt.verify now token (JWT_SECRET E.secretVar) with
  | error err => rfl
  | ok c =>
    simp only []
    cases User.findById E.sqlite db c.userId with
    | error err => rfl
    | ok found => cases found <;> rfl

theorem login_db_calls (E : Env) (now : Nat) (db : Db) (e p : String) :
    (login E now db e p).db = db ∧ (login E now db e p).calls = [.findByEmail e] := by
  unfold login
  cases User.findByEmail db e with
  | error err => exact ⟨rfl, rfl⟩
  | ok found =>
    cases found with
    | none => exact ⟨rfl, rfl⟩
    | some user =>
      simp only []
      cases user.verifyPassword E.bcrypt p <;> exact ⟨rfl, rfl⟩

/-- A response of `POST /register` is an error body with status 400, or status 201
with the view of a stored row and a token. -/
theorem postRegister_shape (E : Env) (now salt : Nat) (db : Db) (reqBody : Option Body) :
    (∃ msg, (postRegister E now salt db reqBody).response = ⟨400, errorBody msg⟩) ∨
    (∃ row ∈ (postRegister E now salt db reqBody).db.rows, ∃ tok,
      (postRegister E now salt db reqBody).response =
        ⟨201, .obj [("user", viewJson row), ("token", .str tok)]⟩) := by
  cases reqBody with
  | none => exact Or.inl ⟨_, rfl⟩
  | some body =>
    cases hg : (falsy body.email || falsy body.password) with
    | true => exact Or.inl ⟨_, by rw [postRegister_missing E now salt db body hg]⟩
    | false =>
      obtain ⟨e, p, rfl, he, hp⟩ := (guard_false_iff body).mp hg
      rw [postRegister_present E now salt db e p he hp]
      cases hres : (register E now salt db e p).result with
      | error err => exact Or.inl ⟨err.message, rfl⟩
      | ok r =>
        obtain ⟨row, hmem, _, hr⟩ := register_ok_view E now salt db e p r hres
        subst hr
        exact Or.inr ⟨row, hmem, _, rfl⟩

/-- A response of `POST /login` is an error body with status 400 or 401, or status
200 with the view of a stored row and a token. -/
theorem postLogin_shape (E : Env) (now : Nat) (db : Db) (reqBody : Option Body) :
    (∃ msg, (postLogin E now db reqBody).response = ⟨400, errorBody msg⟩) ∨
    (∃ msg, (postLogin E now db reqBody).response = ⟨401, errorBody msg⟩) ∨
    (∃ row ∈ db.rows, ∃ tok,
      (postLogin E now db reqBody).response =
        ⟨200, .obj [("user", viewJson row), ("token", .str tok)]⟩) := by
  cases reqBody with
  | none => exact Or.inr (Or.inl ⟨_, rfl⟩)
  | some body =>
    cases hg : (falsy body.email || falsy body.password) with
    | true => exact Or.inl ⟨_, by rw [postLogin_missing E now db body hg]⟩
    | false =>
      obtain ⟨e, p, rfl, he, hp⟩ := (guard_false_iff body).mp hg
      rw [postLogin_present E now db e p he hp]
      cases hres : (login E now db e p).result with
      | error err => exact Or.inr (Or.inl ⟨err.message, rfl⟩)
      | ok r =>
        obtain ⟨row, hmem, _, hr⟩ := login_ok_view E now db e p r hres
        subst hr
        exact Or.inr (Or.inr ⟨row, hmem, _, rfl⟩)

/-- A response of `GET /me` is an error body with status 401, or status 200 with
the view of a stored row. -/
theorem getMe_shape (E : Env) (now : Nat) (db : Db) (authorization : Option String) :
    (∃ msg, (getMe E now db authorization).response = ⟨401, errorBody msg⟩) ∨
    (∃ row ∈ db.rows,
      (getMe E now db authorization).response = ⟨200, .obj [("user", viewJson row)]⟩) := by
  unfold getMe
  simp only []
  cases hg : falsy (bearerToken authorization) with
  | true => exact Or.inl ⟨_, rfl⟩
  | false =>
    simp only [Bool.false_eq_true, if_false]
    cases hres : (verifyToken E now db ((bearerToken authorization).getD "")).result with
    | error err => exact Or.inl ⟨err.message, rfl⟩
    | ok u =>
      obtain ⟨row, hmem, hu⟩ := verifyToken_ok E now db _ u hres
      subst hu
      exact Or.inr ⟨row, hmem, rfl⟩

theorem keys_errorBody (msg : String) : (errorBody msg).keys = ["error"] := by
  simp [errorBody, Json.keys, Json.keysOf]

theorem keys_authBody (row : Row) (tok : String) :
    (Json.obj [("user", viewJson row), ("token", .str tok)]).keys =
      ["user", "id", "email", "createdAt", "token"] := by
  simp [viewJson, Json.keys, Json.keysOf]

theorem keys_meBody (row : Row) :
    (Json.obj [("user", viewJson row)]).keys = ["user", "id", "email", "createdAt"] := by
  simp [viewJson, Json.keys, Json.keysOf]

/-! ## C7: the public user view -/

/-- C7 (public user view). A successful `register` or `login` returns exactly
`{ user: { id, email, createdAt }, token }` with the three fields copied from a
record of the store (the one with the given email). `verifyToken`, when it
succeeds, returns a full record of the store, `passwordHash` included. A 201
response of `POST /register` and a 200 response of `POST /login` have exactly the
body `{ user: { id, email, createdAt }, token }` of a stored record, a 200
response of `GET /me` has exactly the body `{ user: { id, email, createdAt } }`,
and no response of the three routes, for any request, has a key `passwordHash`
at any depth. -/
theorem public_user_view (E : Env) (now salt : Nat) (db : Db) (e p token : String)
    (body : Option Body) (authorization : Option String) :
    (∀ r, (register E now salt db e p).result = .ok r →
      ∃ row ∈ (register E now salt db e p).db.rows, row.email = e ∧
        r = ⟨⟨row.id, row.email, row.created_at⟩, generateToken E now (User.ofRow row)⟩) ∧
    (∀ r, (login E now db e p).result = .ok r →
      ∃ row ∈ db.rows, row.email = e ∧
        r = ⟨⟨row.id, row.email, row.created_at⟩, generateToken E now (User.ofRow row)⟩) ∧
    (∀ u, (verifyToken E now db token).result = .ok u →
      ∃ row ∈ db.rows, u = ⟨row.id, row.email, row.password_hash, row.created_at⟩) ∧
    ((postRegister E now salt db body).response.status = 201 →
      ∃ row ∈ (postRegister E now salt db body).db.rows, ∃ tok,
        (postRegister E now salt db body).response.body =
          .obj [("user", .obj [("id", .num row.id), ("email", .str row.email),
              ("createdAt", .num row.created_at)]),
            ("token", .str tok)]) ∧
    ((postLogin E now db body).response.status = 200 →
      ∃ row ∈ db.rows, ∃ tok,
        (postLogin E now db body).response.body =
          .obj [("user", .obj [("id", .num row.id), ("email", .str row.email),
              ("createdAt", .num row.created_at)]),
            ("token", .str tok)]) ∧
    ((getMe E now db authorization).response.status = 200 →
      ∃ row ∈ db.rows,
        (getMe E now db authorization).response.body =
          .obj [("user", .obj [("id", .num row.id), ("email", .str row.email),
              ("createdAt", .num row.created_at)])]) ∧
    "passwordHash" ∉ (postRegister E now salt db body).response.body.keys ∧
    "passwordHash" ∉ (postLogin E now db body).response.body.keys ∧
    "passwordHash" ∉ (getMe E now db authorization).response.body.keys := by
  refine ⟨register_ok_view E now salt db e p, login_ok_view E now db e p,
    verifyToken_ok E now db token, ?_, ?_, ?_, ?_, ?_, ?_⟩
  · intro h
    rcases postRegister_shape E now salt db body with ⟨msg, hr⟩ | ⟨row, hmem, tok, hr⟩
    · rw [hr] at h; cases h
    · exact ⟨row, hmem, tok, by rw [hr]; rfl⟩
  · intro h
    rcases postLogin_shape E now db body with ⟨msg, hr⟩ | ⟨msg, hr⟩ | ⟨row, hmem, tok, hr⟩
    · rw [hr] at h; cases h
    · rw [hr] at h; cases h
    · exact ⟨row, hmem, tok, by rw [hr]; rfl⟩
  · intro h
    rcases getMe_shape E now db authorization with ⟨msg, hr⟩ | ⟨row, hmem, hr⟩
    · rw [hr] at h; cases h
    · exact ⟨row, hmem, by rw [hr]; rfl⟩
  · rcases postRegister_shape E now salt db body with ⟨msg, hr⟩ | ⟨row, hmem, tok, hr⟩
    · rw [hr]; simp [keys_errorBody]
    · rw [hr]; simp [keys_authBody]
  · rcases postLogin_shape E now db body with ⟨msg, hr⟩ | ⟨msg, hr⟩ | ⟨row, hmem, tok, hr⟩
    · rw [hr]; simp [keys_errorBody]
    · rw [hr]; simp [keys_errorBody]
    · rw [hr]; simp [keys_authBody]
  · rcases getMe_shape E now db authorization with ⟨msg, hr⟩ | ⟨row, hmem, hr⟩
    · rw [hr]; simp [keys_errorBody]
    · rw [hr]; simp [keys_meBody]

/-- C7 at a concrete input: the 201 response to the registration of
`a@example.com` and the 200 response of `GET /me` for the token it was given. -/
theorem public_user_view_witness :
    (∃ row ∈ (postRegister toyEnv 1000 7 emptyDb
          (some ⟨some "a@example.com", some "pw12345"⟩)).db.rows, ∃ tok,
        (postRegister toyEnv 1000 7 emptyDb
          (some ⟨some "a@example.com", some "pw12345"⟩)).response.body =
          .obj [("user", .obj [("id", .num row.id), ("email", .str row.email),
              ("createdAt", .num row.created_at)]),
            ("token", .str tok)]) ∧
    (∃ row ∈ oneUserDb.rows,
        (getMe toyEnv 1001 oneUserDb (some
          "Bearer your-secret-key-change-in-production|1|1000|87400|a@example.com")).response.body =
          .obj [("user", .obj [("id", .num row.id), ("email", .str row.email),
              ("createdAt", .num row.created_at)])]) :=
  ⟨(public_user_view toyEnv 1000 7 emptyDb "a@example.com" "pw12345" ""
      (some ⟨some "a@example.com", some "pw12345"⟩) none).2.2.2.1 rfl,
   (public_user_view toyEnv 1001 7 oneUserDb "a@example.com" "pw12345" ""
      (some ⟨some "a@example.com", some "pw12345"⟩) (some
        "Bearer your-secret-key-change-in-production|1|1000|87400|a@example.com")).2.2.2.2.2.1
      rfl⟩

/-! ## C8: the store is only ever extended -/

/-- C8 (frame). `login` and `verifyToken` leave the store as it was whether they
succeed or fail, and `login` only calls `User.findByEmail`. A sequential
`register` that fails, in particular with `User already exists`, leaves the store
as it was. A successful `register` leaves a store whose rows are the earlier
rows, each unchanged and in place, followed by exactly one new row, which has
the registered email. -/
theorem store_frame (E : Env) (now salt : Nat) (db : Db) (e p token : String) :
    (login E now db e p).db = db ∧
    (login E now db e p).calls = [.findByEmail e] ∧
    (verifyToken E now db token).db = db ∧
    (∀ err, (register E now salt db e p).result = .error err →
      (register E now salt db e p).db = db) ∧
    (∀ r, (register E now salt db e p).result = .ok r →
      ∃ row, (register E now salt db e p).db.rows = db.rows ++ [row] ∧ row.email = e ∧
        (register E now salt db e p).db.rows.length = db.rows.length + 1 ∧
        (register E now salt db e p).db.rows.take db.rows.length = db.rows ∧
        (register E now salt db e p).db.fault = db.fault) := by
  refine ⟨(login_db_calls E now db e p).1, (login_db_calls E now db e p).2,
    verifyToken_db E now db token, ?_, ?_⟩
  · intro err h
    rcases register_cases E now salt db e p with
      ⟨m, _, heq⟩ | ⟨row, _, _, heq⟩ | ⟨_, _, heq⟩
    · rw [heq]
    · rw [heq]
    · rw [heq] at h; cases h
  · intro r h
    obtain ⟨hf, _, heq⟩ := register_ok E now salt db e p r h
    rw [heq]
    exact ⟨newRow E.bcrypt now salt db e p, rfl, rfl, by simp, by simp, hf.symm⟩

/-- C8 at a concrete input: a registration on the store that holds
`a@example.com` adds one row behind it; a repeated one changes nothing. -/
theorem store_frame_witness :
    (∃ row, (register toyEnv 2000 9 oneUserDb "b@example.com" "hunter2").db.rows =
        oneUserDb.rows ++ [row] ∧ row.email = "b@example.com") ∧
    (register toyEnv 2000 9 oneUserDb "a@example.com" "hunter2").db = oneUserDb :=
  ⟨(fun ⟨row, h1, h2, _⟩ => ⟨row, h1, h2⟩)
      ((store_frame toyEnv 2000 9 oneUserDb "b@example.com" "hunter2" "").2.2.2.2
        ⟨⟨2, "b@example.com", 2000⟩,
          "your-secret-key-change-in-production|2|2000|88400|b@example.com"⟩ rfl),
   (store_frame toyEnv 2000 9 oneUserDb "a@example.com" "hunter2" "").2.2.2.1
      (.error "User already exists") rfl⟩

/-! ## C9: the signing secret -/

/-- C9 does not hold of the code. When `JWT_SECRET` is absent or empty the
constant is the literal of line 7, and every token is signed under it, whatever
the libraries are. At a concrete input: in a process started without the
variable, a token that an outsider encodes under the literal is accepted by
`verifyToken` as user 1, password hash and all, while a process started with
`JWT_SECRET=s3cret` rejects the same token. -/
theorem secret_falls_back_to_literal :
    JWT_SECRET none = "your-secret-key-change-in-production" ∧
    JWT_SECRET (some "") = "your-secret-key-change-in-production" ∧
    (∀ (bc : Bcrypt) (J : JwtLib) (sq : Sqlite) (now : Nat) (u : User),
      generateToken ⟨bc, J, sq, none⟩ now u =
          J.sign now u.id u.email "your-secret-key-change-in-production" ∧
      generateToken ⟨bc, J, sq, some ""⟩ now u =
          J.sign now u.id u.email "your-secret-key-change-in-production") ∧
    (verifyToken toyEnv 6000 oneUserDb forgedToken).result =
        .ok ⟨1, "a@example.com", "$2b$10$7$pw12345", 1000⟩ ∧
    (verifyToken keyedEnv 6000 oneUserDb forgedToken).result =
        .error (.error "Invalid token") := by
  refine ⟨rfl, rfl, ?_, rfl, rfl⟩
  intro bc J sq now u
  exact ⟨rfl, rfl⟩

/-! ## C10: missing input is answered by the routes -/

/-- C10 fails as stated. A request without a parsed body (`req.body` is
`undefined`) has neither `email` nor `password`. In both handlers the
destructuring of `req.body` is inside the `try`, so it throws and the `catch`
answers: `POST /login` with status 401, not 400, and both routes with the
message of the `TypeError`, not with `Email and password are required`. -/
theorem missing_body_not_400 :
    (postLogin toyEnv 1000 oneUserDb none).response.status = 401 ∧
    (postLogin toyEnv 1000 oneUserDb none).response.status ≠ 400 ∧
    (postLogin toyEnv 1000 oneUserDb none).response.body =
        .obj [("error",
          .str "Cannot destructure property 'email' of 'req.body' as it is undefined.")] ∧
    (postRegister toyEnv 1000 7 oneUserDb none).response.status = 400 ∧
    (postRegister toyEnv 1000 7 oneUserDb none).response.body =
        .obj [("error",
          .str "Cannot destructure property 'email' of 'req.body' as it is undefined.")] ∧
    "Cannot destructure property 'email' of 'req.body' as it is undefined." ≠
        "Email and password are required" := by
  refine ⟨rfl, ?_, rfl, rfl, rfl, by decide⟩
  intro h
  have h2 : (postLogin toyEnv 1000 oneUserDb none).response.status = 401 := rfl
  rw [h2] at h
  cases h

/-- C10 as amended. For a request with a parsed body in which `email` or
`password` is absent or the empty string, `POST /register` and `POST /login` both
answer status 400 with `{ error: 'Email and password are required' }`, make no
call at all (neither `authService.register` nor `authService.login`, hence no
call on the store) and leave the store as it was. A request without a parsed
body also leads to no call and leaves the store as it was. When both fields are
non-empty strings `e` and `p`, the first call of the handler is
`authService.register(e, p)`, respectively `authService.login(e, p)`, followed by
the calls of that operation run on exactly `e` and `p`, and the store is the one
that operation leaves. -/
theorem missing_input (E : Env) (now salt : Nat) (db : Db) (body : Body) :
    ((body.email = none ∨ body.email = some "" ∨
        body.password = none ∨ body.password = some "") →
      (postRegister E now salt db (some body)).response.status = 400 ∧
      (postRegister E now salt db (some body)).response.body =
          .obj [("error", .str "Email and password are required")] ∧
      (postRegister E now salt db (some body)).calls = [] ∧
      (postRegister E now salt db (some body)).db = db ∧
      (postLogin E now db (some body)).response.status = 400 ∧
      (postLogin E now db (some body)).response.body =
          .obj [("error", .str "Email and password are required")] ∧
      (postLogin E now db (some body)).calls = [] ∧
      (postLogin E now db (some body)).db = db) ∧
    ((postRegister E now salt db none).calls = [] ∧
      (postRegister E now salt db none).db = db ∧
      (postLogin E now db none).calls = [] ∧
      (postLogin E now db none).db = db) ∧
    (∀ e p, body.email = some e → body.password = some p → e ≠ "" → p ≠ "" →
      (postRegister E now salt db (some body)).calls =
          .register e p :: (register E now salt db e p).calls ∧
      (postRegister E now salt db (some body)).db = (register E now salt db e p).db ∧
      (postLogin E now db (some body)).calls = .login e p :: (login E now db e p).calls ∧
      (postLogin E now db (some body)).db = (login E now db e p).db) := by
  refine ⟨?_, ⟨rfl, rfl, rfl, rfl⟩, ?_⟩
  · intro h
    have hg : (falsy body.email || falsy body.password) = true := by
      rw [Bool.or_eq_true, falsy_eq_true_iff, falsy_eq_true_iff]
      rcases h with h | h | h | h
      · exact Or.inl (Or.inl h)
      · exact Or.inl (Or.inr h)
      · exact Or.inr (Or.inl h)
      · exact Or.inr (Or.inr h)
    rw [postRegister_missing E now salt db body hg, postLogin_missing E now db body hg]
    exact ⟨rfl, rfl, rfl, rfl, rfl, rfl, rfl, rfl⟩
  · intro e p hbe hbp he hp
    have hb : body = ⟨some e, some p⟩ := by
      cases body
      simp only at hbe hbp
      rw [hbe, hbp]
    subst hb
    rw [postRegister_present E now salt db e p he hp, postLogin_present E now db e p he hp]
    refine ⟨?_, ?_, ?_, ?_⟩
    · cases (register E now salt db e p).result <;> rfl
    · cases (register E now salt db e p).result <;> rfl
    · cases (login E now db e p).result <;> rfl
    · cases (login E now db e p).result <;> rfl

/-- C10 at concrete inputs: a body without `password`, and a complete body. -/
theorem missing_input_witness :
    ((postRegister toyEnv 1000 7 oneUserDb
        (some ⟨some "a@example.com", none⟩)).response.status = 400 ∧
      (postRegister toyEnv 1000 7 oneUserDb (some ⟨some "a@example.com", none⟩)).calls = []) ∧
    (postLogin toyEnv 1000 oneUserDb (some ⟨some "a@example.com", some "pw12345"⟩)).calls =
      .login "a@example.com" "pw12345" ::
        (login toyEnv 1000 oneUserDb "a@example.com" "pw12345").calls :=
  ⟨(fun h => ⟨h.1, h.2.2.1⟩)
      ((missing_input toyEnv 1000 7 oneUserDb ⟨some "a@example.com", none⟩).1
        (Or.inr (Or.inr (Or.inl rfl)))),
   ((missing_input toyEnv 1000 7 oneUserDb ⟨some "a@example.com", some "pw12345"⟩).2.2
      "a@example.com" "pw12345" rfl rfl (by decide) (by decide)).2.2.1⟩

end StackedPrs
